import Mathlib

/-!
Shallow embedding of `src/csv_parse.rs` (repository `simd-playground`).

Bytes are modelled as `Nat` (byte values 0..255; the code never relies on the
upper bound). `usize` arithmetic that can wrap is modelled explicitly with
`% U64` (release-profile wrapping semantics). A file is modelled by its byte
contents; `File::read(&mut buffer[offset..])` on a file returns
`min (BUFFER_SIZE - offset) remaining` bytes, which is modelled by a chunked
source (`List ReadEvent`): each read pops the next chunk, truncated to the
requested size (a file is the one-chunk source, and multi-chunk sources model
the short reads allowed by the `Read` contract). An `ioErr` event models a
read call failing with an I/O error. The outcome of a scan is
`ScanResult.ok count` (the Rust `Ok(line_count)`), `ScanResult.ioError`
(the Rust `Err` propagated by `?`), or `ScanResult.panicked` (an out-of-range
slice index). The loops are given explicit fuel; `none` means the fuel ran
out before the loop finished, and divergence of the Rust loop is expressed as
`∀ fuel, ... = none`.
-/

namespace CsvParse

/-- Modulus of `usize` (64-bit): 2 ^ 64. -/
def U64 : Nat := 18446744073709551616

/-- `const BUFFER_SIZE: usize = 4096;` from csv_parse.rs line 21. -/
def BUFFER_SIZE : Nat := 4096

/-- Outcome of one scan invocation. -/
inductive ScanResult where
  | ok (count : Nat)
  | ioError
  | panicked
  deriving DecidableEq, Repr

/-- One event of the byte source: a chunk of bytes made available to a
`read` call, or a failing read. -/
inductive ReadEvent where
  | chunk (data : List Nat)
  | readErr
  deriving DecidableEq, Repr

/-- `memchr::memchr(b, hay)`: index of the first occurrence of `b`. -/
def memchrIdx (b : Nat) : List Nat → Option Nat
  | [] => none
  | x :: xs => if x = b then some 0 else (memchrIdx b xs).map (· + 1)

/-- `pattern.starts_with(s)` reads as `prefixCheck s pattern`: whether `s`
is a prefix of the second list. -/
def prefixCheck : List Nat → List Nat → Bool
  | [], _ => true
  | _ :: _, [] => false
  | a :: as, b :: bs => a = b && prefixCheck as bs

/-- The `while i < bytes_read && buffer[i] != b'\n' { i += 1 }` walk: number
of leading bytes of the given suffix of the filled region that are not the
line terminator 10. -/
def skipNonNewline : List Nat → Nat
  | [] => 0
  | b :: rest => if b = 10 then 0 else skipNonNewline rest + 1

/-- The inner search loop of `count_pattern_matches_from_file`
(csv_parse.rs lines 63-85). `data` is the filled region
`buffer[0..bytes_read]` (its length is `bytes_read`), `first`/`tailB` are
`pattern[0]` / `pattern[1..]`, `p` is `pattern.len()`.
Returns `none` when the slice `buffer[i..bytes_read - pattern.len() + 1]`
panics (its end is computed with wrapping `usize` arithmetic and the buffer
is `BUFFER_SIZE` long), `some count` when the loop exits.
Fuel bounds the iterations; every call from `countLoop` passes
`data.length + 2`, which exceeds the possible number of iterations since
`i` strictly increases and the loop exits once `i > data.length`. -/
def searchLoop : Nat → Nat → List Nat → Nat → List Nat → Nat → Nat → Option Nat
  | 0, _, _, _, _, _, count => some count
  | fuel + 1, first, tailB, p, data, i, count =>
    if i ≤ data.length - p then
      let bound := ((data.length + (U64 - p)) % U64 + 1) % U64
      if bound > BUFFER_SIZE ∨ i > bound then none
      else
        match memchrIdx first ((data.drop i).take (bound - i)) with
        | none => some count
        | some pos =>
          if (data.drop (i + pos + 1)).take (p - 1) = tailB then
            searchLoop fuel first tailB p data
              (i + pos + skipNonNewline (data.drop (i + pos)) + 1) (count + 1)
          else
            searchLoop fuel first tailB p data (i + pos + 1) count
    else some count

/-- The boundary carry-over loop (csv_parse.rs lines 88-95) restricted to the
candidate suffixes: given `t = data.drop (bytes_read - (pattern.len() - 1))`,
return the first (i.e. longest) suffix of `t` that is a prefix of the
pattern, or `[]` when none is. -/
def firstPrefixSuffix (pattern : List Nat) : List Nat → List Nat
  | [] => []
  | b :: rest =>
    if prefixCheck (b :: rest) pattern then b :: rest
    else firstPrefixSuffix pattern rest

/-- The carry saved by the boundary loop: the bytes `buffer[i..bytes_read]`
copied to the start of the buffer, for the first
`i ∈ bytes_read.saturating_sub(pattern.len() - 1) .. bytes_read` such that
`pattern.starts_with(&buffer[i..bytes_read])`; `[]` when the loop finds
none (offset stays 0). -/
def computeCarry (pattern data : List Nat) : List Nat :=
  firstPrefixSuffix pattern (data.drop (data.length - (pattern.length - 1)))

/-- `file.read(&mut buffer[offset..])` over a chunked source: request
`BUFFER_SIZE - offset` bytes; a zero-length request reads nothing (the
`Read` contract returns 0 for an empty buffer), an exhausted source returns
0 bytes, a `readErr` event fails, and a chunk is returned truncated to the
request, its remainder staying at the front of the source. -/
def readChunk (offset : Nat) (src : List ReadEvent) :
    Except Unit (List Nat × List ReadEvent) :=
  if BUFFER_SIZE - offset = 0 then Except.ok ([], src)
  else
    match src with
    | [] => Except.ok ([], [])
    | ReadEvent.readErr :: _ => Except.error ()
    | ReadEvent.chunk c :: rest =>
      let t := c.take (BUFFER_SIZE - offset)
      let rem := c.drop (BUFFER_SIZE - offset)
      Except.ok (t, if rem = [] then rest else ReadEvent.chunk rem :: rest)

/-- The main loop of `count_pattern_matches_from_file` (csv_parse.rs lines
55-96). `carry` is the saved tail occupying `buffer[0..offset]`; `data` is
the filled region after a read, of length `bytes_read = offset + n`.
`none` means the fuel ran out (the Rust loop is still running). -/
def countLoop : Nat → List Nat → List ReadEvent → List Nat → Nat → Option ScanResult
  | 0, _, _, _, _ => none
  | fuel + 1, pattern, src, carry, count =>
    match readChunk carry.length src with
    | Except.error _ => some ScanResult.ioError
    | Except.ok (t, src') =>
      let data := carry ++ t
      if data.length = 0 then some (ScanResult.ok count)
      else
        match searchLoop (data.length + 2) (pattern.headD 0) (pattern.drop 1)
            pattern.length data 0 count with
        | none => some ScanResult.panicked
        | some count2 => countLoop fuel pattern src' (computeCarry pattern data) count2

/-- `count_pattern_matches_from_file` generalized over the source events:
the empty-pattern early return (lines 43-45), then the buffered loop. -/
def count_pattern_matches_src (fuel : Nat) (src : List ReadEvent)
    (pattern : List Nat) : Option ScanResult :=
  if pattern = [] then some (ScanResult.ok 0)
  else countLoop fuel pattern src [] 0

/-- `count_pattern_matches_from_file(file_path, pattern)` where `fileData`
is the contents of the file: a one-chunk source, so every read returns
`min (BUFFER_SIZE - offset) remaining` bytes, exactly the file semantics.
The fuel `fileData.length + 2` covers every terminating run: each
non-final iteration consumes at least one new byte of the file. -/
def count_pattern_matches_from_file (fileData pattern : List Nat) :
    Option ScanResult :=
  count_pattern_matches_src (fileData.length + 2) [ReadEvent.chunk fileData] pattern

/-- The streaming scan fed by explicit successive reads (short reads are
allowed by the `Read` contract the loop is written against). -/
def count_pattern_matches_chunks (chunks : List (List Nat))
    (pattern : List Nat) : Option ScanResult :=
  count_pattern_matches_src ((chunks.map List.length).sum + chunks.length + 2)
    (chunks.map ReadEvent.chunk) pattern

/-- The search loop of `count_pattern_matches_in_memory` (csv_parse.rs
lines 122-141): memchr runs over the whole remaining suffix `data[i..]` and
an explicit `i + pattern.len() <= data.len()` check guards the tail
comparison, so this variant never panics. -/
def memSearchLoop : Nat → Nat → List Nat → Nat → List Nat → Nat → Nat → Nat
  | 0, _, _, _, _, _, count => count
  | fuel + 1, first, tailB, p, data, i, count =>
    if i ≤ data.length - p then
      match memchrIdx first (data.drop i) with
      | none => count
      | some pos =>
        if i + pos + p ≤ data.length ∧ (data.drop (i + pos + 1)).take (p - 1) = tailB then
          memSearchLoop fuel first tailB p data
            (i + pos + skipNonNewline (data.drop (i + pos)) + 1) (count + 1)
        else
          memSearchLoop fuel first tailB p data (i + pos + 1) count
    else count

/-- `count_pattern_matches_in_memory(file_path, pattern)` where `data` is
the contents of the file (given the contents, `fs::read` cannot fail, so
the result is the count itself). -/
def count_pattern_matches_in_memory (data pattern : List Nat) : Nat :=
  if pattern = [] then 0
  else memSearchLoop (data.length + 2) (pattern.headD 0) (pattern.drop 1)
    pattern.length data 0 0

/-- Pattern used for the C6 refutation: 4097 copies of byte 97, one byte
longer than the buffer capacity. -/
def c6pat : List Nat := List.replicate 4097 97

/-- File contents used for the C4 refutation: a single line of 4100 bytes —
`PAT`, then 4093 filler bytes, then `PAT` again and the line terminator —
whose only line contains the pattern `PAT` = [80, 65, 84] twice, with the
second occurrence beyond the 4096-byte buffer boundary. -/
def c4_line : List Nat := [80, 65, 84] ++ List.replicate 4093 120 ++ [80, 65, 84, 10]

/-! Step (unfolding) lemmas, one loop iteration each. -/

theorem countLoop_succ (fuel : Nat) (pattern : List Nat) (src : List ReadEvent)
    (carry : List Nat) (count : Nat) :
    countLoop (fuel + 1) pattern src carry count =
      match readChunk carry.length src with
      | Except.error _ => some ScanResult.ioError
      | Except.ok (t, src') =>
        let data := carry ++ t
        if data.length = 0 then some (ScanResult.ok count)
        else
          match searchLoop (data.length + 2) (pattern.headD 0) (pattern.drop 1)
              pattern.length data 0 count with
          | none => some ScanResult.panicked
          | some count2 => countLoop fuel pattern src' (computeCarry pattern data) count2 :=
  rfl

theorem searchLoop_succ (fuel : Nat) (first : Nat) (tailB : List Nat) (p : Nat)
    (data : List Nat) (i count : Nat) :
    searchLoop (fuel + 1) first tailB p data i count =
      (if i ≤ data.length - p then
        let bound := ((data.length + (U64 - p)) % U64 + 1) % U64
        if bound > BUFFER_SIZE ∨ i > bound then none
        else
          match memchrIdx first ((data.drop i).take (bound - i)) with
          | none => some count
          | some pos =>
            if (data.drop (i + pos + 1)).take (p - 1) = tailB then
              searchLoop fuel first tailB p data
                (i + pos + skipNonNewline (data.drop (i + pos)) + 1) (count + 1)
            else
              searchLoop fuel first tailB p data (i + pos + 1) count
      else some count) :=
  rfl

theorem countLoop_succ_ok (fuel : Nat) (pattern : List Nat) (src src' : List ReadEvent)
    (carry t : List Nat) (count : Nat)
    (h : readChunk carry.length src = Except.ok (t, src')) :
    countLoop (fuel + 1) pattern src carry count =
      (if (carry ++ t).length = 0 then some (ScanResult.ok count)
      else
        match searchLoop ((carry ++ t).length + 2) (pattern.headD 0) (pattern.drop 1)
            pattern.length (carry ++ t) 0 count with
        | none => some ScanResult.panicked
        | some count2 =>
          countLoop fuel pattern src' (computeCarry pattern (carry ++ t)) count2) := by
  rw [countLoop_succ, h]

theorem countLoop_succ_ok_found (fuel : Nat) (pattern : List Nat)
    (src src' : List ReadEvent) (carry t : List Nat) (count count2 : Nat)
    (h : readChunk carry.length src = Except.ok (t, src'))
    (hne : ¬((carry ++ t).length = 0))
    (hs : searchLoop ((carry ++ t).length + 2) (pattern.headD 0) (pattern.drop 1)
      pattern.length (carry ++ t) 0 count = some count2) :
    countLoop (fuel + 1) pattern src carry count =
      countLoop fuel pattern src' (computeCarry pattern (carry ++ t)) count2 := by
  rw [countLoop_succ_ok fuel pattern src src' carry t count h, if_neg hne, hs]

theorem memSearchLoop_succ (fuel : Nat) (first : Nat) (tailB : List Nat) (p : Nat)
    (data : List Nat) (i count : Nat) :
    memSearchLoop (fuel + 1) first tailB p data i count =
      (if i ≤ data.length - p then
        match memchrIdx first (data.drop i) with
        | none => count
        | some pos =>
          if i + pos + p ≤ data.length ∧
              (data.drop (i + pos + 1)).take (p - 1) = tailB then
            memSearchLoop fuel first tailB p data
              (i + pos + skipNonNewline (data.drop (i + pos)) + 1) (count + 1)
          else
            memSearchLoop fuel first tailB p data (i + pos + 1) count
      else count) :=
  rfl

theorem searchLoop_step_found (fuel first : Nat) (tailB : List Nat) (p : Nat)
    (data : List Nat) (i count pos : Nat)
    (hg : i ≤ data.length - p)
    (hb : ((data.length + (U64 - p)) % U64 + 1) % U64 ≤ BUFFER_SIZE)
    (hib : i ≤ ((data.length + (U64 - p)) % U64 + 1) % U64)
    (hm : memchrIdx first
      ((data.drop i).take (((data.length + (U64 - p)) % U64 + 1) % U64 - i)) = some pos) :
    searchLoop (fuel + 1) first tailB p data i count =
      (if (data.drop (i + pos + 1)).take (p - 1) = tailB then
        searchLoop fuel first tailB p data
          (i + pos + skipNonNewline (data.drop (i + pos)) + 1) (count + 1)
      else searchLoop fuel first tailB p data (i + pos + 1) count) := by
  rw [searchLoop_succ, if_pos hg,
    if_neg (by simp only [not_or, not_lt]; exact ⟨hb, hib⟩), hm]

theorem searchLoop_exit_guard (fuel first : Nat) (tailB : List Nat) (p : Nat)
    (data : List Nat) (i count : Nat) (hg : ¬(i ≤ data.length - p)) :
    searchLoop (fuel + 1) first tailB p data i count = some count := by
  rw [searchLoop_succ, if_neg hg]

theorem memSearchLoop_step_found (fuel first : Nat) (tailB : List Nat) (p : Nat)
    (data : List Nat) (i count pos : Nat)
    (hg : i ≤ data.length - p)
    (hm : memchrIdx first (data.drop i) = some pos) :
    memSearchLoop (fuel + 1) first tailB p data i count =
      (if i + pos + p ≤ data.length ∧
          (data.drop (i + pos + 1)).take (p - 1) = tailB then
        memSearchLoop fuel first tailB p data
          (i + pos + skipNonNewline (data.drop (i + pos)) + 1) (count + 1)
      else memSearchLoop fuel first tailB p data (i + pos + 1) count) := by
  rw [memSearchLoop_succ, if_pos hg, hm]

theorem memSearchLoop_exit_guard (fuel first : Nat) (tailB : List Nat) (p : Nat)
    (data : List Nat) (i count : Nat) (hg : ¬(i ≤ data.length - p)) :
    memSearchLoop (fuel + 1) first tailB p data i count = count := by
  rw [memSearchLoop_succ, if_neg hg]

theorem skipNonNewline_cons_ne (b : Nat) (l : List Nat) (h : ¬(b = 10)) :
    skipNonNewline (b :: l) = skipNonNewline l + 1 := by
  simp [skipNonNewline, h]

theorem skipNonNewline_replicate_append (n : Nat) (rest : List Nat) :
    skipNonNewline (List.replicate n 120 ++ rest) = n + skipNonNewline rest := by
  induction n with
  | zero => simp
  | succ m ih =>
    rw [List.replicate_succ, List.cons_append,
      skipNonNewline_cons_ne _ _ (by decide), ih]
    omega

theorem memchrIdx_cons_self (b : Nat) (l : List Nat) : memchrIdx b (b :: l) = some 0 := by
  simp [memchrIdx]

theorem skipNonNewline_replicate (n : Nat) : skipNonNewline (List.replicate n 120) = n := by
  induction n with
  | zero => rfl
  | succ m ih =>
    rw [List.replicate_succ, skipNonNewline_cons_ne _ _ (by decide), ih]

/-! Fidelity checks: the embedding reproduces the expectations of the
repository's own unit tests (`test_basic`, `test_multiple_matches_same_line`
from csv_parse.rs), evaluating both variants on the tests' byte strings. -/

/-- The `test_basic` fixture `"Name,University,Year\nAlice,MIT,2020\n`
`Bob,Harvard,2021\nCarol,Harvard,2022\n"` with pattern `"Harvard"` counts
2 matching lines, in both variants. -/
theorem fidelity_test_basic :
    count_pattern_matches_from_file
      ([78,97,109,101,44,85,110,105,118,101,114,115,105,116,121,44,89,101,97,114,10]
        ++ [65,108,105,99,101,44,77,73,84,44,50,48,50,48,10]
        ++ [66,111,98,44,72,97,114,118,97,114,100,44,50,48,50,49,10]
        ++ [67,97,114,111,108,44,72,97,114,118,97,114,100,44,50,48,50,50,10])
      [72,97,114,118,97,114,100] = some (ScanResult.ok 2) ∧
    count_pattern_matches_in_memory
      ([78,97,109,101,44,85,110,105,118,101,114,115,105,116,121,44,89,101,97,114,10]
        ++ [66,111,98,44,72,97,114,118,97,114,100,44,50,48,50,49,10])
      [72,97,114,118,97,114,100] = 1 := by
  decide

/-- The `test_multiple_matches_same_line` fixture: a line containing
`"Harvard"` twice counts once when the line fits in one buffer. -/
theorem fidelity_test_multiple_matches_same_line :
    count_pattern_matches_from_file
      [72,97,114,118,97,114,100,44,72,97,114,118,97,114,100,32,85,110,105,118,46,10]
      [72,97,114,118,97,114,100] = some (ScanResult.ok 1) ∧
    count_pattern_matches_in_memory
      [72,97,114,118,97,114,100,44,72,97,114,118,97,114,100,32,85,110,105,118,46,10]
      [72,97,114,118,97,114,100] = 1 := by
  decide

/-! Helper lemmas about the carry computation. -/

theorem prefixCheck_iff (s t : List Nat) : prefixCheck s t = true ↔ s <+: t := by
  induction s generalizing t with
  | nil => simp [prefixCheck]
  | cons a as ih =>
    cases t with
    | nil => simp [prefixCheck]
    | cons b bs => simp [prefixCheck, List.cons_prefix_cons, ih]

theorem firstPrefixSuffix_length_le (pattern t : List Nat) :
    (firstPrefixSuffix pattern t).length ≤ t.length := by
  induction t with
  | nil => simp [firstPrefixSuffix]
  | cons b rest ih =>
    by_cases hc : prefixCheck (b :: rest) pattern = true
    · simp [firstPrefixSuffix, hc]
    · simp only [firstPrefixSuffix, if_neg hc, List.length_cons]
      exact Nat.le_succ_of_le ih

theorem firstPrefixSuffix_check (pattern t : List Nat)
    (h : firstPrefixSuffix pattern t ≠ []) :
    prefixCheck (firstPrefixSuffix pattern t) pattern = true := by
  induction t with
  | nil => simp [firstPrefixSuffix] at h
  | cons b rest ih =>
    by_cases hc : prefixCheck (b :: rest) pattern = true
    · simp [firstPrefixSuffix, hc]
    · simp only [firstPrefixSuffix, if_neg hc] at h ⊢
      exact ih h

theorem firstPrefixSuffix_suffix (pattern t : List Nat) :
    firstPrefixSuffix pattern t <:+ t := by
  induction t with
  | nil => simp [firstPrefixSuffix]
  | cons b rest ih =>
    by_cases hc : prefixCheck (b :: rest) pattern = true
    · simp [firstPrefixSuffix, hc]
    · simp only [firstPrefixSuffix, if_neg hc]
      exact ih.trans (List.suffix_cons b rest)

theorem firstPrefixSuffix_longest (pattern t s : List Nat) (hs : s <:+ t)
    (hc : prefixCheck s pattern = true) :
    s.length ≤ (firstPrefixSuffix pattern t).length := by
  induction t with
  | nil =>
    have h0 : s = [] := List.suffix_nil.mp hs
    subst h0
    simp
  | cons b rest ih =>
    by_cases hb : prefixCheck (b :: rest) pattern = true
    · simp only [firstPrefixSuffix, if_pos hb]
      exact hs.length_le
    · simp only [firstPrefixSuffix, if_neg hb]
      rcases List.suffix_cons_iff.mp hs with h1 | h1
      · subst h1
        exact absurd hc hb
      · exact ih h1

/-- C1: the claim that the streaming scan and the whole-buffer variant return
identical counts for every pattern and every in-memory source fails: on the
2-byte file contents [120, 121] with the 4-byte pattern [97, 98, 99, 100],
the in-memory variant returns 0, while the streaming scan panics (the slice
end `bytes_read - pattern.len() + 1` wraps below zero because
`bytes_read = 2 < 4 = pattern.len()`) instead of returning any count. -/
theorem c1_stream_vs_memory_mismatch :
    count_pattern_matches_from_file [120, 121] [97, 98, 99, 100] =
        some ScanResult.panicked ∧
    count_pattern_matches_in_memory [120, 121] [97, 98, 99, 100] = 0 := by
  decide

/-- C2: the claim that for any split of the input into successive reads the
streaming count equals the count of the unsplit input fails: the line
`PAT,xx,PAT\n` (pattern `PAT` = [80, 65, 84]) scanned in one read counts 1,
but delivered as the two reads `PAT,xx,` and `PAT\n` it counts 2 — after the
first verified match the skip-to-line-terminator state is lost at the read
boundary, so the second occurrence on the same line is counted again. -/
theorem c2_split_read_changes_count :
    count_pattern_matches_chunks
        [[80, 65, 84, 44, 120, 120, 44], [80, 65, 84, 10]] [80, 65, 84] =
      some (ScanResult.ok 2) ∧
    count_pattern_matches_chunks
        [[80, 65, 84, 44, 120, 120, 44, 80, 65, 84, 10]] [80, 65, 84] =
      some (ScanResult.ok 1) ∧
    count_pattern_matches_from_file
        [80, 65, 84, 44, 120, 120, 44, 80, 65, 84, 10] [80, 65, 84] =
      some (ScanResult.ok 1) := by
  decide

/-- C3: the claim that the search bound `filled - pattern.length + 1` is only
evaluated when a full pattern fits and that the scan never panics fails: on
the 1-byte file contents [120] with pattern [97, 98, 99] the loop is entered
(the guard `i <= bytes_read.saturating_sub(pattern.len())` saturates to 0),
the bound wraps to 2^64 - 1, and the slice `buffer[0..2^64 - 1]` is out of
range for the 4096-byte buffer: the scan panics instead of returning. -/
theorem c3_short_input_panics :
    count_pattern_matches_from_file [120] [97, 98, 99] = some ScanResult.panicked := by
  decide

/-- C5: the claim that the streaming scan always terminates, discarding a
dangling carry at end of stream, fails: on the 2-byte file contents [97, 98]
with pattern [97, 98, 99], the whole file is carried over as a pattern
prefix, the next read returns 0 bytes, `bytes_read = offset = 2 ≠ 0`, and
the boundary loop re-detects the same carry, so the loop never exits:
for every fuel the loop is still running. -/
theorem c5_dangling_carry_diverges :
    ∀ fuel, countLoop fuel [97, 98, 99] [ReadEvent.chunk [97, 98]] [] 0 = none := by
  have stuck : ∀ f, countLoop f [97, 98, 99] [] [97, 98] 0 = none := by
    intro f
    induction f with
    | zero => rfl
    | succ n ih => exact ih
  intro fuel
  cases fuel with
  | zero => rfl
  | succ n => exact stuck n

/-- C7: for the empty pattern both variants return a count of 0 and no
error, for every source (the streaming scan returns `Ok(0)` before even
opening the file, so also for sources whose reads would fail). -/
theorem c7_empty_pattern_zero :
    (∀ fuel src, count_pattern_matches_src fuel src [] = some (ScanResult.ok 0)) ∧
    (∀ fileData, count_pattern_matches_from_file fileData [] = some (ScanResult.ok 0)) ∧
    (∀ data, count_pattern_matches_in_memory data [] = 0) := by
  refine ⟨fun fuel src => rfl, fun fileData => rfl, fun data => rfl⟩

/-- C8: whenever the next read of the source fails with an I/O error, the
streaming loop aborts at once and surfaces that error, whatever pattern,
carry state and count accumulated so far: the partial count is discarded
(the read request is non-empty because the carry never fills the whole
buffer, so the failing read is actually issued). -/
theorem c8_read_error_aborts (fuel : Nat) (pattern : List Nat)
    (rest : List ReadEvent) (carry : List Nat) (count : Nat)
    (h : carry.length < BUFFER_SIZE) :
    countLoop (fuel + 1) pattern (ReadEvent.readErr :: rest) carry count =
      some ScanResult.ioError := by
  rw [countLoop_succ]
  have h2 : ¬ (BUFFER_SIZE - carry.length = 0) := by
    simp only [BUFFER_SIZE] at h ⊢
    omega
  simp [readChunk, if_neg h2]

/-- Witness for C8 at a concrete state: pattern [97], one failing read,
empty carry, count 0. -/
theorem c8_read_error_aborts_w :
    ([] : List Nat).length < BUFFER_SIZE ∧
    countLoop 1 [97] [ReadEvent.readErr] [] 0 = some ScanResult.ioError :=
  ⟨by decide, c8_read_error_aborts 0 [97] [] [] 0 (by decide)⟩

/-- C9: for every non-empty pattern, the carry computed by the boundary
loop — the bytes prepended before the next fill, which together with the
initial carry 0 are the only carry values the loop ever passes on — has
length strictly below the pattern length, and when non-empty it is a
prefix (hence, by the length bound, a proper prefix) of the pattern. -/
theorem c9_carry_invariant (pattern data : List Nat) (h : pattern ≠ []) :
    (computeCarry pattern data).length < pattern.length ∧
    (computeCarry pattern data ≠ [] → computeCarry pattern data <+: pattern) := by
  have hp : 1 ≤ pattern.length := by
    cases pattern with
    | nil => exact absurd rfl h
    | cons a as => simp
  constructor
  · have h1 := firstPrefixSuffix_length_le pattern
      (data.drop (data.length - (pattern.length - 1)))
    have h2 : (data.drop (data.length - (pattern.length - 1))).length =
        data.length - (data.length - (pattern.length - 1)) := List.length_drop ..
    unfold computeCarry
    omega
  · intro hne
    exact (prefixCheck_iff _ _).mp (firstPrefixSuffix_check pattern _ hne)

/-- Witness for C9: pattern [97, 98, 99], chunk [120, 97]; the carry is
[97], of length 1 < 3 and a prefix of the pattern. -/
theorem c9_carry_invariant_w :
    (computeCarry [97, 98, 99] [120, 97]).length < ([97, 98, 99] : List Nat).length ∧
    (computeCarry [97, 98, 99] [120, 97] ≠ [] →
      computeCarry [97, 98, 99] [120, 97] <+: [97, 98, 99]) :=
  c9_carry_invariant [97, 98, 99] [120, 97] (by decide)

/-- C10: the boundary loop carries over the longest suffix of the filled
region (among those of length at most pattern.length - 1, i.e. proper
prefixes of the pattern): the carry is itself a suffix of the filled
region, and any suffix `s` of the filled region that is a proper prefix of
the pattern is no longer than the carry. -/
theorem c10_carry_is_longest (pattern data s : List Nat) (hp : pattern ≠ [])
    (hs : s <:+ data) (hpre : s <+: pattern) (hlt : s.length < pattern.length) :
    computeCarry pattern data <:+ data ∧
    s.length ≤ (computeCarry pattern data).length := by
  have hp1 : 1 ≤ pattern.length := by
    cases pattern with
    | nil => exact absurd rfl hp
    | cons a as => simp
  constructor
  · exact (firstPrefixSuffix_suffix pattern _).trans (List.drop_suffix _ _)
  · obtain ⟨u, hu⟩ := hs
    have hsub : s <:+ data.drop (data.length - (pattern.length - 1)) := by
      have hdd : data.drop (data.length - (pattern.length - 1)) =
          u.drop (data.length - (pattern.length - 1)) ++ s := by
        rw [← hu]
        exact List.drop_append_of_le_length (by simp only [List.length_append]; omega)
      rw [hdd]
      exact List.suffix_append _ _
    exact firstPrefixSuffix_longest pattern _ s hsub ((prefixCheck_iff _ _).mpr hpre)

/-- Witness for C10: pattern [97, 98, 99], chunk [99, 97, 98], suffix
s = [97, 98]; the computed carry is [97, 98] itself. -/
theorem c10_carry_is_longest_w :
    computeCarry [97, 98, 99] [99, 97, 98] <:+ [99, 97, 98] ∧
    ([97, 98] : List Nat).length ≤ (computeCarry [97, 98, 99] [99, 97, 98]).length :=
  c10_carry_is_longest [97, 98, 99] [99, 97, 98] [97, 98] (by decide) (by decide)
    (by decide) (by decide)

theorem c6pat_length : c6pat.length = 4097 := by
  rw [show c6pat = List.replicate 4097 97 from rfl, List.length_replicate]

/-- C6 (amended): a pattern longer than the buffer capacity is not rejected
before scanning — no validation exists in the code; instead, for every such
pattern (any length in (4096, 2^64 - 4096), the usize range the wrapping
model is faithful for) and every non-empty file shorter than the buffer,
the scan reads the file and then panics on the out-of-range slice end
`bytes_read - pattern.len() + 1`. -/
theorem c6_oversize_pattern_panics (pattern content : List Nat)
    (h1 : BUFFER_SIZE < pattern.length)
    (h2 : pattern.length < U64 - BUFFER_SIZE)
    (h3 : content ≠ []) (h4 : content.length < BUFFER_SIZE) :
    count_pattern_matches_from_file content pattern = some ScanResult.panicked := by
  have hp0 : pattern ≠ [] := by
    intro e
    rw [e] at h1
    simp [BUFFER_SIZE] at h1
  unfold count_pattern_matches_from_file count_pattern_matches_src
  rw [if_neg hp0]
  rw [show content.length + 2 = (content.length + 1) + 1 from rfl, countLoop_succ]
  have ht : content.take BUFFER_SIZE = content := List.take_of_length_le (le_of_lt h4)
  have hd : content.drop BUFFER_SIZE = [] := List.drop_eq_nil_of_le (le_of_lt h4)
  have hB : BUFFER_SIZE ≠ 0 := by decide
  have hrc : readChunk (List.length ([] : List Nat)) [ReadEvent.chunk content] =
      Except.ok (content, []) := by
    simp [readChunk, hB, ht, hd]
  rw [hrc]
  simp only [List.nil_append]
  have hne2 : ¬(content.length = 0) := by
    simp [List.length_eq_zero]
    exact h3
  rw [if_neg hne2]
  have hsl : searchLoop (content.length + 2) (pattern.headD 0) (List.drop 1 pattern)
      pattern.length content 0 0 = none := by
    rw [show content.length + 2 = (content.length + 1) + 1 from rfl, searchLoop_succ]
    rw [if_pos (Nat.zero_le _)]
    have e1 : (content.length + (U64 - pattern.length)) % U64 =
        content.length + (U64 - pattern.length) :=
      Nat.mod_eq_of_lt (by simp only [U64, BUFFER_SIZE] at *; omega)
    have hcond : (content.length + (U64 - pattern.length) + 1) % U64 > BUFFER_SIZE := by
      have e2 : (content.length + (U64 - pattern.length) + 1) % U64 =
          content.length + (U64 - pattern.length) + 1 :=
        Nat.mod_eq_of_lt (by simp only [U64, BUFFER_SIZE] at *; omega)
      rw [e2]
      simp only [U64, BUFFER_SIZE] at *
      omega
    simp only [e1]
    rw [if_pos (Or.inl hcond)]
  rw [hsl]

/-- C6 (counterexample): with a 4097-byte pattern and the 1-byte file
contents [120], the scan does not reject the configuration with an error
before reading: the read happens and the scan panics, so no
`InvalidPattern`-class error (indeed no error value at all — the only error
outcome the function can return is a propagated read failure) is returned. -/
theorem c6_no_rejection_cex :
    count_pattern_matches_from_file [120] c6pat = some ScanResult.panicked := by
  unfold count_pattern_matches_from_file count_pattern_matches_src
  have hp0 : ¬(c6pat = ([] : List Nat)) := by
    intro h
    have h2 := congrArg List.length h
    rw [c6pat_length] at h2
    simp at h2
  rw [if_neg hp0]
  rw [show ([120] : List Nat).length + 2 = 2 + 1 from rfl]
  have hrc : readChunk (List.length ([] : List Nat)) [ReadEvent.chunk [120]] =
      Except.ok ([120], []) := rfl
  rw [countLoop_succ_ok 2 c6pat _ [] [] [120] 0 hrc]
  rw [show (([] : List Nat) ++ [120]) = [120] from rfl]
  rw [if_neg (by decide : ¬(([120] : List Nat).length = 0))]
  have hsl : searchLoop (([120] : List Nat).length + 2) (c6pat.headD 0)
      (List.drop 1 c6pat) c6pat.length [120] 0 0 = none := by
    rw [show ([120] : List Nat).length + 2 = 2 + 1 from rfl, searchLoop_succ]
    rw [if_pos (Nat.zero_le _)]
    rw [c6pat_length]
    norm_num [U64, BUFFER_SIZE]
  rw [hsl]

/-- Witness for C6 (amended) at a concrete input: the 4097-byte pattern and
the 2-byte file contents [121, 122]. -/
theorem c6_oversize_pattern_panics_w :
    BUFFER_SIZE < c6pat.length ∧
    c6pat.length < U64 - BUFFER_SIZE ∧
    ([121, 122] : List Nat) ≠ [] ∧
    ([121, 122] : List Nat).length < BUFFER_SIZE ∧
    count_pattern_matches_from_file [121, 122] c6pat = some ScanResult.panicked := by
  have hh1 : BUFFER_SIZE < c6pat.length := by
    rw [c6pat_length]
    norm_num [BUFFER_SIZE]
  have hh2 : c6pat.length < U64 - BUFFER_SIZE := by
    rw [c6pat_length]
    norm_num [U64, BUFFER_SIZE]
  have hh3 : ([121, 122] : List Nat) ≠ [] := by decide
  have hh4 : ([121, 122] : List Nat).length < BUFFER_SIZE := by decide
  exact ⟨hh1, hh2, hh3, hh4, c6_oversize_pattern_panics _ _ hh1 hh2 hh3 hh4⟩

theorem c4_streaming_eval : count_pattern_matches_from_file c4_line [80, 65, 84] = some (ScanResult.ok 2) := by
  unfold count_pattern_matches_from_file count_pattern_matches_src
  rw [if_neg (by decide : ¬(([80, 65, 84] : List Nat) = []))]
  have hclen : c4_line.length = 4100 := by
    rw [show c4_line = [80, 65, 84] ++ (List.replicate 4093 120 ++ [80, 65, 84, 10]) from rfl]
    simp only [List.length_append, List.length_replicate, List.length_cons, List.length_nil]
  rw [hclen]
  have htake : c4_line.take BUFFER_SIZE = [80, 65, 84] ++ List.replicate 4093 120 := by
    rw [show c4_line = [80, 65, 84] ++ (List.replicate 4093 120 ++ [80, 65, 84, 10]) from rfl]
    simp only [List.take_append_eq_append_take, List.take_replicate,
      List.length_cons, List.length_nil, List.length_replicate, BUFFER_SIZE]
    norm_num
  have hdrop : c4_line.drop BUFFER_SIZE = [80, 65, 84, 10] := by
    rw [show c4_line = [80, 65, 84] ++ (List.replicate 4093 120 ++ [80, 65, 84, 10]) from rfl]
    simp only [List.drop_append_eq_append_drop, List.drop_replicate,
      List.length_cons, List.length_nil, List.length_replicate, BUFFER_SIZE]
    norm_num
  have hrc : readChunk (List.length ([] : List Nat)) [ReadEvent.chunk c4_line] =
      Except.ok ([80, 65, 84] ++ List.replicate 4093 120, [ReadEvent.chunk [80, 65, 84, 10]]) := by
    simp only [readChunk, List.length_nil, Nat.sub_zero]
    rw [if_neg (by decide : ¬(BUFFER_SIZE = 0))]
    rw [htake, hdrop]
    rw [if_neg (by decide : ¬(([80, 65, 84, 10] : List Nat) = []))]
  have hlen1 : ([80, 65, 84] ++ List.replicate 4093 120 : List Nat).length = 4096 := by
    simp only [List.length_append, List.length_cons, List.length_nil, List.length_replicate]
  have hskip1 : skipNonNewline ([80, 65, 84] ++ List.replicate 4093 120) = 4096 := by
    have hc : ([80, 65, 84] : List Nat) ++ List.replicate 4093 120 =
        80 :: 65 :: 84 :: List.replicate 4093 120 := by rfl
    rw [hc, skipNonNewline_cons_ne _ _ (by decide), skipNonNewline_cons_ne _ _ (by decide),
      skipNonNewline_cons_ne _ _ (by decide), skipNonNewline_replicate]
  have hmem1 : memchrIdx 80 ((([80, 65, 84] ++ List.replicate 4093 120 : List Nat).drop 0).take
      (((([80, 65, 84] ++ List.replicate 4093 120 : List Nat).length + (U64 - 3)) % U64 + 1) % U64 - 0)) =
      some 0 := by
    rw [List.drop_zero, hlen1]
    rfl
  have hsearch : searchLoop ((([80, 65, 84] ++ List.replicate 4093 120 : List Nat)).length + 2)
      80 [65, 84] 3 ([80, 65, 84] ++ List.replicate 4093 120) 0 0 = some 1 := by
    rw [hlen1]
    have hf1 : (4096 : Nat) + 2 = 4097 + 1 := by norm_num
    rw [hf1]
    rw [searchLoop_step_found 4097 80 [65, 84] 3 _ 0 0 0 (Nat.zero_le _)
      (by rw [hlen1]; norm_num [U64, BUFFER_SIZE]) (Nat.zero_le _) hmem1]
    have htail : List.take (3 - 1) (List.drop (0 + 0 + 1)
        ([80, 65, 84] ++ List.replicate 4093 120 : List Nat)) = [65, 84] := by rfl
    rw [if_pos htail]
    have hdz : List.drop (0 + 0) ([80, 65, 84] ++ List.replicate 4093 120 : List Nat) =
        [80, 65, 84] ++ List.replicate 4093 120 := by rfl
    rw [hdz, hskip1]
    have hi2 : (0 : Nat) + 0 + 4096 + 1 = 4096 + 1 := by norm_num
    rw [hi2]
    rw [searchLoop_exit_guard 4096 80 [65, 84] 3 _ (4096 + 1) (0 + 1)
      (by rw [hlen1]; decide)]
  have hf0 : (4100 : Nat) + 2 = 4101 + 1 := by norm_num
  rw [hf0]
  rw [countLoop_succ_ok_found 4101 [80, 65, 84] _ [ReadEvent.chunk [80, 65, 84, 10]]
    [] ([80, 65, 84] ++ List.replicate 4093 120) 0 1 hrc
    (by rw [List.nil_append, hlen1]; decide)
    (by rw [List.nil_append]; exact hsearch)]
  have hcc : computeCarry [80, 65, 84] (([] : List Nat) ++ ([80, 65, 84] ++ List.replicate 4093 120)) = [] := by
    rw [List.nil_append]
    unfold computeCarry
    rw [hlen1]
    have hm1 : List.length ([80, 65, 84] : List Nat) - 1 = 2 := by rfl
    rw [hm1]
    have hm2 : (4096 : Nat) - 2 = 4094 := by norm_num
    rw [hm2]
    have hd2 : ([80, 65, 84] ++ List.replicate 4093 120 : List Nat).drop 4094 = [120, 120] := by
      simp only [List.drop_append_eq_append_drop, List.drop_replicate,
        List.length_cons, List.length_nil, List.length_replicate]
      norm_num
      rfl
    rw [hd2]
    rfl
  rw [hcc]
  decide

theorem c4_memory_eval : count_pattern_matches_in_memory c4_line [80, 65, 84] = 1 := by
  unfold count_pattern_matches_in_memory
  rw [if_neg (by decide : ¬(([80, 65, 84] : List Nat) = []))]
  have hclen : c4_line.length = 4100 := by
    rw [show c4_line = [80, 65, 84] ++ (List.replicate 4093 120 ++ [80, 65, 84, 10]) from rfl]
    simp only [List.length_append, List.length_cons, List.length_nil, List.length_replicate]
  have hh1 : List.headD ([80, 65, 84] : List Nat) 0 = 80 := by rfl
  have hh2 : List.drop 1 ([80, 65, 84] : List Nat) = [65, 84] := by rfl
  have hh3 : List.length ([80, 65, 84] : List Nat) = 3 := by rfl
  rw [hclen, hh1, hh2, hh3]
  have hf : (4100 : Nat) + 2 = 4101 + 1 := by norm_num
  rw [hf]
  have hmm : memchrIdx 80 (c4_line.drop 0) = some 0 := by
    rw [List.drop_zero]
    rfl
  rw [memSearchLoop_step_found 4101 80 [65, 84] 3 c4_line 0 0 0 (Nat.zero_le _) hmm]
  have hcond : 0 + 0 + 3 ≤ c4_line.length ∧
      List.take (3 - 1) (List.drop (0 + 0 + 1) c4_line) = [65, 84] := by
    constructor
    · rw [hclen]
      norm_num
    · rfl
  rw [if_pos hcond]
  have hdz : List.drop (0 + 0) c4_line = c4_line := by rfl
  rw [hdz]
  have hskip2 : skipNonNewline c4_line = 4099 := by
    have hc : c4_line = 80 :: 65 :: 84 :: (List.replicate 4093 120 ++ [80, 65, 84, 10]) := by rfl
    rw [hc, skipNonNewline_cons_ne _ _ (by decide), skipNonNewline_cons_ne _ _ (by decide),
      skipNonNewline_cons_ne _ _ (by decide), skipNonNewline_replicate_append]
    have hsmall : skipNonNewline [80, 65, 84, 10] = 3 := by rfl
    rw [hsmall]
  rw [hskip2]
  have hf2 : (4101 : Nat) = 4100 + 1 := by norm_num
  rw [hf2]
  rw [memSearchLoop_exit_guard 4100 80 [65, 84] 3 c4_line (0 + 0 + 4099 + 1) (0 + 1)
    (by rw [hclen]; decide)]

theorem c4_newline_count_eval : c4_line.count 10 = 1 := by
  have hc : c4_line = [80, 65, 84] ++ (List.replicate 4093 120 ++ [80, 65, 84, 10]) := by rfl
  rw [hc]
  simp only [List.count_append, List.count_replicate]
  norm_num

/-- C4: the claim that a line containing two or more pattern occurrences
contributes exactly 1 to the count of both scan variants fails for the
streaming variant: `c4_line` is a single 4100-byte line (exactly one
line-terminator byte 10, at the end) containing the pattern
`PAT` = [80, 65, 84] twice, once at offset 0 and once at offset 4096; the
first buffer's skip-to-line-terminator walk ends at the buffer boundary,
the skip state is not carried over, and the second occurrence of the same
line is counted again in the next buffer: the streaming scan returns 2
while the in-memory variant returns 1. -/
theorem c4_line_double_count :
    count_pattern_matches_from_file c4_line [80, 65, 84] = some (ScanResult.ok 2) ∧
    count_pattern_matches_in_memory c4_line [80, 65, 84] = 1 ∧
    c4_line.count 10 = 1 :=
  ⟨c4_streaming_eval, c4_memory_eval, c4_newline_count_eval⟩


end CsvParse
